import Mathlib

/-!
Verification of the geodesy kernel of the `coordinates` repository.

The repository contains several near-identical copies of a spherical-earth
geodesy kernel: great-circle (haversine) distance, initial bearing (forward
azimuth), destination-point projection along a bearing, and geodesic two-ray
intersection.  This file gives a shallow embedding of those functions over ℝ
(Python floats are modelled by real numbers, `math.sin` by `Real.sin`, and so
on) and proves properties of them.

Embedded functions and their sources:
* `geolocation.haversine_distance`, `geolocation.initial_bearing`
  — src/geolocation.py lines 22–37.
* `coord.calculate_bearing`, `coord.calculate_distance`
  — src/coord.py lines 51–67.
* `multi_user_map.haversine` — src/multi_user_map.py lines 36–42.
* `triangulate_app.rotate_bearing`, `triangulate_app.line_intersection`
  — src/triangulate_app.py lines 14–41.
-/

open Real

namespace Geo

/-- Model of Python `math.radians`: degrees to radians. -/
noncomputable def rad (x : ℝ) : ℝ := x * π / 180

/-- Model of Python `math.degrees`: radians to degrees. -/
noncomputable def deg (x : ℝ) : ℝ := x * 180 / π

/-- Model of Python `math.atan2 y x`: the angle of the point `(x, y)`,
in `(-π, π]`, with `atan2 0 0 = 0` as in IEEE arithmetic. -/
noncomputable def atan2 (y x : ℝ) : ℝ :=
  if 0 < x then arctan (y / x)
  else if x < 0 then
    (if 0 ≤ y then arctan (y / x) + π else arctan (y / x) - π)
  else
    (if 0 < y then π / 2 else if y < 0 then -(π / 2) else 0)

/-- Model of the Python float `%` operator: `x - y * ⌊x / y⌋`.
For a positive modulus the result lies in `[0, y)`, as in Python. -/
noncomputable def fmod (x y : ℝ) : ℝ := x - y * ⌊x / y⌋

end Geo

open Geo

namespace geolocation

/-- The haversine intermediate term `a` (src/geolocation.py line 27). -/
noncomputable def haversine_a (lat1 lon1 lat2 lon2 : ℝ) : ℝ :=
  Real.sin (rad (lat2 - lat1) / 2) ^ 2 +
    Real.cos (rad lat1) * Real.cos (rad lat2) * Real.sin (rad (lon2 - lon1) / 2) ^ 2

/-- The haversine central angle `c` (src/geolocation.py line 28).
Note the code takes `sqrt (1 - a)` with no clamping of `a`. -/
noncomputable def haversine_c (lat1 lon1 lat2 lon2 : ℝ) : ℝ :=
  2 * atan2 (Real.sqrt (haversine_a lat1 lon1 lat2 lon2))
    (Real.sqrt (1 - haversine_a lat1 lon1 lat2 lon2))

/-- Great-circle distance (src/geolocation.py lines 22–29); the float literal
`6371.0` denotes the real number 6371. -/
noncomputable def haversine_distance (lat1 lon1 lat2 lon2 : ℝ) : ℝ :=
  6371 * haversine_c lat1 lon1 lat2 lon2

/-- Initial bearing (src/geolocation.py lines 31–37). -/
noncomputable def initial_bearing (lat1 lon1 lat2 lon2 : ℝ) : ℝ :=
  fmod
    (deg (atan2 (Real.sin (rad (lon2 - lon1)) * Real.cos (rad lat2))
      (Real.cos (rad lat1) * Real.sin (rad lat2) -
        Real.sin (rad lat1) * Real.cos (rad lat2) * Real.cos (rad (lon2 - lon1)))) + 360)
    360

end geolocation

namespace coord

/-- Bearing calculation (src/coord.py lines 51–57): identical formula to
`geolocation.initial_bearing`. -/
noncomputable def calculate_bearing (lat1 lon1 lat2 lon2 : ℝ) : ℝ :=
  fmod
    (deg (atan2 (Real.sin (rad (lon2 - lon1)) * Real.cos (rad lat2))
      (Real.cos (rad lat1) * Real.sin (rad lat2) -
        Real.sin (rad lat1) * Real.cos (rad lat2) * Real.cos (rad (lon2 - lon1)))) + 360)
    360

/-- Haversine distance (src/coord.py lines 60–67): identical formula to
`geolocation.haversine_distance`, with `R = 6371`. -/
noncomputable def calculate_distance (lat1 lon1 lat2 lon2 : ℝ) : ℝ :=
  6371 * (2 * atan2
    (Real.sqrt (Real.sin (rad (lat2 - lat1) / 2) ^ 2 +
      Real.cos (rad lat1) * Real.cos (rad lat2) * Real.sin (rad (lon2 - lon1) / 2) ^ 2))
    (Real.sqrt (1 - (Real.sin (rad (lat2 - lat1) / 2) ^ 2 +
      Real.cos (rad lat1) * Real.cos (rad lat2) * Real.sin (rad (lon2 - lon1) / 2) ^ 2))))


end coord

namespace multi_user_map

/-- Haversine distance (src/multi_user_map.py lines 36–42): identical formula
to `geolocation.haversine_distance`. -/
noncomputable def haversine (lat1 lon1 lat2 lon2 : ℝ) : ℝ :=
  6371 * (2 * atan2
    (Real.sqrt (Real.sin (rad (lat2 - lat1) / 2) ^ 2 +
      Real.cos (rad lat1) * Real.cos (rad lat2) * Real.sin (rad (lon2 - lon1) / 2) ^ 2))
    (Real.sqrt (1 - (Real.sin (rad (lat2 - lat1) / 2) ^ 2 +
      Real.cos (rad lat1) * Real.cos (rad lat2) * Real.sin (rad (lon2 - lon1) / 2) ^ 2))))

end multi_user_map

namespace triangulate_app

/-- Destination point along a bearing (src/triangulate_app.py lines 14–21).
The local `lat2` of the source appears twice below because the source reuses
it inside `lon2`; the expressions are identical. -/
noncomputable def rotate_bearing (lat lon bearing_deg : ℝ) (distance_km : ℝ := 1000) : ℝ × ℝ :=
  (deg (Real.arcsin (Real.sin (rad lat) * Real.cos (distance_km / 6371) +
      Real.cos (rad lat) * Real.sin (distance_km / 6371) * Real.cos (rad bearing_deg))),
   deg (rad lon + atan2
      (Real.sin (rad bearing_deg) * Real.sin (distance_km / 6371) * Real.cos (rad lat))
      (Real.cos (distance_km / 6371) - Real.sin (rad lat) *
        Real.sin (Real.arcsin (Real.sin (rad lat) * Real.cos (distance_km / 6371) +
          Real.cos (rad lat) * Real.sin (distance_km / 6371) * Real.cos (rad bearing_deg))))))

/-- The local `Δ12` of `line_intersection` (src/triangulate_app.py line 28):
angular separation of the two stations. -/
noncomputable def Δ12 (p1 p2 : ℝ × ℝ) : ℝ :=
  2 * Real.arcsin (Real.sqrt (Real.sin ((rad p2.1 - rad p1.1) / 2) ^ 2 +
    Real.cos (rad p1.1) * Real.cos (rad p2.1) * Real.sin ((rad p2.2 - rad p1.2) / 2) ^ 2))

/-- The local `θa` of `line_intersection` (src/triangulate_app.py line 30). -/
noncomputable def θa (p1 p2 : ℝ × ℝ) : ℝ :=
  Real.arccos ((Real.sin (rad p2.1) - Real.sin (rad p1.1) * Real.cos (Δ12 p1 p2)) /
    (Real.sin (Δ12 p1 p2) * Real.cos (rad p1.1)))

/-- The local `θb` of `line_intersection` (src/triangulate_app.py line 31). -/
noncomputable def θb (p1 p2 : ℝ × ℝ) : ℝ :=
  Real.arccos ((Real.sin (rad p1.1) - Real.sin (rad p2.1) * Real.cos (Δ12 p1 p2)) /
    (Real.sin (Δ12 p1 p2) * Real.cos (rad p2.1)))

/-- The local `θ12` of `line_intersection` (src/triangulate_app.py line 32). -/
noncomputable def θ12 (p1 p2 : ℝ × ℝ) : ℝ :=
  if 0 < Real.sin (rad p2.2 - rad p1.2) then θa p1 p2 else 2 * π - θa p1 p2

/-- The local `θ21` of `line_intersection` (src/triangulate_app.py line 32). -/
noncomputable def θ21 (p1 p2 : ℝ × ℝ) : ℝ :=
  if 0 < Real.sin (rad p2.2 - rad p1.2) then 2 * π - θb p1 p2 else θb p1 p2

/-- The local `α1` of `line_intersection` (src/triangulate_app.py line 33). -/
noncomputable def α1 (p1 : ℝ × ℝ) (b1 : ℝ) (p2 : ℝ × ℝ) : ℝ :=
  fmod (rad b1 - θ12 p1 p2 + π) (2 * π) - π

/-- The local `α2` of `line_intersection` (src/triangulate_app.py line 34). -/
noncomputable def α2 (p1 p2 : ℝ × ℝ) (b2 : ℝ) : ℝ :=
  fmod (θ21 p1 p2 - rad b2 + π) (2 * π) - π

/-- The local `α3` of `line_intersection` (src/triangulate_app.py line 37). -/
noncomputable def α3 (p1 : ℝ × ℝ) (b1 : ℝ) (p2 : ℝ × ℝ) (b2 : ℝ) : ℝ :=
  Real.arccos (-Real.cos (α1 p1 b1 p2) * Real.cos (α2 p1 p2 b2) +
    Real.sin (α1 p1 b1 p2) * Real.sin (α2 p1 p2 b2) * Real.cos (Δ12 p1 p2))

/-- The local `Δ13` of `line_intersection` (src/triangulate_app.py line 38). -/
noncomputable def Δ13 (p1 : ℝ × ℝ) (b1 : ℝ) (p2 : ℝ × ℝ) (b2 : ℝ) : ℝ :=
  atan2 (Real.sin (Δ12 p1 p2) * Real.sin (α1 p1 b1 p2) * Real.sin (α2 p1 p2 b2))
    (Real.cos (α2 p1 p2 b2) + Real.cos (α1 p1 b1 p2) * Real.cos (α3 p1 b1 p2 b2))

/-- The local `φ3` of `line_intersection` (src/triangulate_app.py line 39). -/
noncomputable def φ3 (p1 : ℝ × ℝ) (b1 : ℝ) (p2 : ℝ × ℝ) (b2 : ℝ) : ℝ :=
  Real.arcsin (Real.sin (rad p1.1) * Real.cos (Δ13 p1 b1 p2 b2) +
    Real.cos (rad p1.1) * Real.sin (Δ13 p1 b1 p2 b2) * Real.cos (rad b1))

/-- The local `λ3` of `line_intersection` (src/triangulate_app.py line 40);
named `lam3` here because `λ` is a reserved token in Lean. -/
noncomputable def lam3 (p1 : ℝ × ℝ) (b1 : ℝ) (p2 : ℝ × ℝ) (b2 : ℝ) : ℝ :=
  rad p1.2 + atan2 (Real.sin (rad b1) * Real.sin (Δ13 p1 b1 p2 b2) * Real.cos (rad p1.1))
    (Real.cos (Δ13 p1 b1 p2 b2) - Real.sin (rad p1.1) * Real.sin (φ3 p1 b1 p2 b2))

/-- Geodesic two-ray intersection (src/triangulate_app.py lines 23–41).
The source signals every degenerate case by returning `None`, modelled here
as `Option.none`; a successful intersection returns the point in degrees. -/
noncomputable def line_intersection (p1 : ℝ × ℝ) (b1 : ℝ) (p2 : ℝ × ℝ) (b2 : ℝ) :
    Option (ℝ × ℝ) :=
  if Δ12 p1 p2 = 0 then none
  else if Real.sin (α1 p1 b1 p2) = 0 ∧ Real.sin (α2 p1 p2 b2) = 0 then none
  else if Real.sin (α1 p1 b1 p2) * Real.sin (α2 p1 p2 b2) < 0 then none
  else some (deg (φ3 p1 b1 p2 b2), deg (lam3 p1 b1 p2 b2))

end triangulate_app

/-!
Helper lemmas about the modelled Python primitives.
-/

namespace Geo

theorem rad_deg (x : ℝ) : rad (deg x) = x := by
  unfold rad deg
  field_simp

theorem deg_rad (x : ℝ) : deg (rad x) = x := by
  unfold rad deg
  field_simp

theorem rad_zero : rad 0 = 0 := by simp [rad]

theorem deg_zero : deg 0 = 0 := by simp [deg]

theorem rad_sub (a b : ℝ) : rad (a - b) = rad a - rad b := by
  unfold rad; ring

theorem fmod_eq_mul_fract (x y : ℝ) (hy : y ≠ 0) :
    fmod x y = y * Int.fract (x / y) := by
  unfold fmod Int.fract
  field_simp

theorem fmod_nonneg (x y : ℝ) (hy : 0 < y) : 0 ≤ fmod x y := by
  rw [fmod_eq_mul_fract x y hy.ne']
  exact mul_nonneg hy.le (Int.fract_nonneg _)

theorem fmod_lt (x y : ℝ) (hy : 0 < y) : fmod x y < y := by
  rw [fmod_eq_mul_fract x y hy.ne']
  calc y * Int.fract (x / y) < y * 1 :=
        (mul_lt_mul_left hy).mpr (Int.fract_lt_one _)
    _ = y := mul_one y

theorem atan2_zero_zero : atan2 0 0 = 0 := by
  simp [atan2]

theorem atan2_of_pos (y x : ℝ) (hx : 0 < x) : atan2 y x = arctan (y / x) := by
  simp [atan2, hx]

theorem atan2_zero_of_pos (x : ℝ) (hx : 0 < x) : atan2 0 x = 0 := by
  rw [atan2_of_pos 0 x hx, zero_div, arctan_zero]

theorem atan2_zero_pos_y (y : ℝ) (hy : 0 < y) : atan2 y 0 = π / 2 := by
  simp [atan2, hy, lt_irrefl]

/-- On the right half plane closed above, `atan2` inverts `(cos, sin)`. -/
theorem atan2_sin_cos (t : ℝ) (h1 : -(π / 2) < t) (h2 : t ≤ π / 2) :
    atan2 (Real.sin t) (Real.cos t) = t := by
  rcases lt_or_eq_of_le h2 with h2' | h2'
  · have hc : 0 < Real.cos t := Real.cos_pos_of_mem_Ioo ⟨h1, h2'⟩
    rw [atan2_of_pos _ _ hc, ← Real.tan_eq_sin_div_cos, Real.arctan_tan h1 h2']
  · subst h2'
    rw [Real.sin_pi_div_two, Real.cos_pi_div_two]
    exact atan2_zero_pos_y 1 one_pos

/-- Cosine of `atan2`, away from the origin. -/
theorem cos_atan2 (y x : ℝ) (h : x ≠ 0 ∨ y ≠ 0) :
    Real.cos (atan2 y x) = x / Real.sqrt (x ^ 2 + y ^ 2) := by
  have hs : (0:ℝ) ≤ x ^ 2 + y ^ 2 := by positivity
  rcases lt_trichotomy x 0 with hx | hx | hx
  · have hx2 : x ^ 2 ≠ 0 := pow_ne_zero 2 hx.ne
    have key : Real.sqrt (1 + (y / x) ^ 2) = Real.sqrt (x ^ 2 + y ^ 2) / (-x) := by
      have h1 : 1 + (y / x) ^ 2 = (x ^ 2 + y ^ 2) / x ^ 2 := by
        field_simp
      rw [h1, Real.sqrt_div hs, Real.sqrt_sq_eq_abs, abs_of_neg hx]
    have hroot : (0:ℝ) < Real.sqrt (x ^ 2 + y ^ 2) := by
      apply Real.sqrt_pos.mpr
      have : (0:ℝ) < x ^ 2 := by positivity
      nlinarith [sq_nonneg y]
    have base : Real.cos (arctan (y / x)) = -x / Real.sqrt (x ^ 2 + y ^ 2) := by
      rw [Real.cos_arctan, key]
      rw [one_div_div]
    by_cases hy : 0 ≤ y
    · have : atan2 y x = arctan (y / x) + π := by
        simp [atan2, hx, not_lt.mpr hx.le, hy]
      rw [this, Real.cos_add_pi, base]
      field_simp
    · have : atan2 y x = arctan (y / x) - π := by
        simp [atan2, hx, not_lt.mpr hx.le, hy]
      rw [this, Real.cos_sub_pi, base]
      field_simp
  · subst hx
    have hy : y ≠ 0 := h.resolve_left (by simp)
    rcases hy.lt_or_lt with hy' | hy'
    · have : atan2 y 0 = -(π / 2) := by simp [atan2, hy', asymm hy', lt_irrefl]
      rw [this, Real.cos_neg, Real.cos_pi_div_two, zero_div]
    · rw [atan2_zero_pos_y y hy', Real.cos_pi_div_two, zero_div]
  · have key : Real.sqrt (1 + (y / x) ^ 2) = Real.sqrt (x ^ 2 + y ^ 2) / x := by
      have h1 : 1 + (y / x) ^ 2 = (x ^ 2 + y ^ 2) / x ^ 2 := by
        field_simp
      rw [h1, Real.sqrt_div hs, Real.sqrt_sq_eq_abs, abs_of_pos hx]
    rw [atan2_of_pos _ _ hx, Real.cos_arctan, key, one_div_div]

end Geo

/-!
Relations between the near-identical kernel copies.
-/

theorem coord.calculate_distance_eq (lat1 lon1 lat2 lon2 : ℝ) :
    coord.calculate_distance lat1 lon1 lat2 lon2 =
      geolocation.haversine_distance lat1 lon1 lat2 lon2 := rfl

theorem coord.calculate_bearing_eq (lat1 lon1 lat2 lon2 : ℝ) :
    coord.calculate_bearing lat1 lon1 lat2 lon2 =
      geolocation.initial_bearing lat1 lon1 lat2 lon2 := rfl

theorem multi_user_map.haversine_eq (lat1 lon1 lat2 lon2 : ℝ) :
    multi_user_map.haversine lat1 lon1 lat2 lon2 =
      geolocation.haversine_distance lat1 lon1 lat2 lon2 := rfl

/-!
Basic facts about the kernel operations.
-/

theorem Geo.deg_le_deg {a b : ℝ} (h : a ≤ b) : deg a ≤ deg b := by
  unfold deg
  gcongr

theorem Geo.deg_pi_div_two : deg (π / 2) = 90 := by
  unfold deg
  field_simp
  ring

theorem Geo.deg_neg_pi_div_two : deg (-(π / 2)) = -90 := by
  unfold deg
  field_simp
  ring

theorem geolocation.haversine_a_symm (lat1 lon1 lat2 lon2 : ℝ) :
    haversine_a lat2 lon2 lat1 lon1 = haversine_a lat1 lon1 lat2 lon2 := by
  unfold haversine_a
  have h1 : rad (lat1 - lat2) = -rad (lat2 - lat1) := by unfold Geo.rad; ring
  have h2 : rad (lon1 - lon2) = -rad (lon2 - lon1) := by unfold Geo.rad; ring
  rw [h1, h2, neg_div, neg_div, Real.sin_neg, Real.sin_neg, neg_sq, neg_sq]
  ring

theorem geolocation.haversine_a_self (lat lon : ℝ) : haversine_a lat lon lat lon = 0 := by
  unfold haversine_a
  simp [Geo.rad]

theorem geolocation.haversine_self (lat lon : ℝ) :
    haversine_distance lat lon lat lon = 0 := by
  unfold haversine_distance haversine_c
  rw [haversine_a_self, Real.sqrt_zero, sub_zero, Real.sqrt_one,
    Geo.atan2_zero_of_pos 1 one_pos]
  ring

theorem geolocation.bearing_self (lat lon : ℝ) : initial_bearing lat lon lat lon = 0 := by
  unfold initial_bearing
  have hx : Real.sin (rad (lon - lon)) * Real.cos (rad lat) = 0 := by
    simp [Geo.rad]
  have hy : Real.cos (rad lat) * Real.sin (rad lat) -
      Real.sin (rad lat) * Real.cos (rad lat) * Real.cos (rad (lon - lon)) = 0 := by
    simp [Geo.rad]
    ring
  rw [hx, hy, Geo.atan2_zero_zero, Geo.deg_zero, zero_add]
  unfold Geo.fmod
  have h1 : (360:ℝ) / 360 = 1 := by norm_num
  rw [h1]
  norm_num

/-!
Claim theorems.
-/

/-- C1: for coincident observation stations (identical start points, hence
angular separation `Δ12 = 0`), the intersection operation fails — the source
returns `None`, modelled as `Option.none` — rather than returning a point,
for any pair of bearings. -/
theorem intersection_coincident_stations_fails (lat lon b1 b2 : ℝ) :
    triangulate_app.line_intersection (lat, lon) b1 (lat, lon) b2 = none := by
  have h : triangulate_app.Δ12 (lat, lon) (lat, lon) = 0 := by
    unfold triangulate_app.Δ12
    simp
  unfold triangulate_app.line_intersection
  rw [if_pos h]

/-- C2 (evidence): at the antipodal pair (10,20) / (-10,-160) the haversine
intermediate term `a` equals exactly 1 in real arithmetic, so the unclamped
`sqrt (1 - a)` taken by the code sits on the boundary of the square-root
domain; any upward floating-point rounding of `a` makes `1 - a` negative.
The code performs no clamping of `a`. -/
theorem haversine_a_eq_one_at_antipode :
    geolocation.haversine_a 10 20 (-10) (-160) = 1 := by
  unfold geolocation.haversine_a
  have h1 : rad ((-10:ℝ) - 10) / 2 = -(π / 18) := by unfold Geo.rad; ring
  have h2 : rad ((-160:ℝ) - 20) / 2 = -(π / 2) := by unfold Geo.rad; ring
  have h3 : rad ((-10):ℝ) = -(π / 18) := by unfold Geo.rad; ring
  have h4 : rad (10:ℝ) = π / 18 := by unfold Geo.rad; ring
  rw [h1, h2, h3, h4, Real.sin_neg, Real.sin_neg, Real.cos_neg, Real.sin_pi_div_two]
  have := Real.sin_sq_add_cos_sq (π / 18)
  nlinarith [this]

/-- C6: for distinct points, both bearing copies return a value in `[0, 360)`;
the value is `(deg (atan2 x y) + 360) mod 360` by definition. -/
theorem initial_bearing_mem_Ico (lat1 lon1 lat2 lon2 : ℝ)
    (h : (lat1, lon1) ≠ (lat2, lon2)) :
    (0 ≤ geolocation.initial_bearing lat1 lon1 lat2 lon2 ∧
      geolocation.initial_bearing lat1 lon1 lat2 lon2 < 360) ∧
    (0 ≤ coord.calculate_bearing lat1 lon1 lat2 lon2 ∧
      coord.calculate_bearing lat1 lon1 lat2 lon2 < 360) := by
  have h360 : (0:ℝ) < 360 := by norm_num
  refine ⟨⟨?_, ?_⟩, ?_⟩
  · exact Geo.fmod_nonneg _ _ h360
  · exact Geo.fmod_lt _ _ h360
  · rw [coord.calculate_bearing_eq]
    exact ⟨Geo.fmod_nonneg _ _ h360, Geo.fmod_lt _ _ h360⟩

/-- C6 witness: instantiated at the distinct pair (0,0), (0,10). -/
theorem initial_bearing_mem_Ico_witness :
    ((0:ℝ), (0:ℝ)) ≠ ((0:ℝ), (10:ℝ)) ∧
    ((0 ≤ geolocation.initial_bearing 0 0 0 10 ∧
      geolocation.initial_bearing 0 0 0 10 < 360) ∧
    (0 ≤ coord.calculate_bearing 0 0 0 10 ∧
      coord.calculate_bearing 0 0 0 10 < 360)) :=
  ⟨by norm_num [Prod.ext_iff], initial_bearing_mem_Ico 0 0 0 10 (by norm_num [Prod.ext_iff])⟩

/-- C7: the great-circle distance is symmetric in its two points, exactly,
for both copies of the operation. -/
theorem distance_symm (lat1 lon1 lat2 lon2 : ℝ) :
    geolocation.haversine_distance lat1 lon1 lat2 lon2 =
      geolocation.haversine_distance lat2 lon2 lat1 lon1 ∧
    coord.calculate_distance lat1 lon1 lat2 lon2 =
      coord.calculate_distance lat2 lon2 lat1 lon1 := by
  have key : geolocation.haversine_distance lat1 lon1 lat2 lon2 =
      geolocation.haversine_distance lat2 lon2 lat1 lon1 := by
    unfold geolocation.haversine_distance geolocation.haversine_c
    rw [geolocation.haversine_a_symm]
  exact ⟨key, by rw [coord.calculate_distance_eq, coord.calculate_distance_eq, key]⟩

/-- C8: the great-circle distance from a point to itself is exactly 0, for
both copies of the operation; the hypotheses are the GeoPoint invariant. -/
theorem distance_self_eq_zero (lat lon : ℝ)
    (h1 : -90 ≤ lat) (h2 : lat ≤ 90) (h3 : -180 ≤ lon) (h4 : lon ≤ 180) :
    geolocation.haversine_distance lat lon lat lon = 0 ∧
    coord.calculate_distance lat lon lat lon = 0 :=
  ⟨geolocation.haversine_self lat lon,
    by rw [coord.calculate_distance_eq]; exact geolocation.haversine_self lat lon⟩

/-- C8 witness: instantiated at the point (0, 0). -/
theorem distance_self_eq_zero_witness :
    ((-90:ℝ) ≤ 0 ∧ (0:ℝ) ≤ 90 ∧ (-180:ℝ) ≤ 0 ∧ (0:ℝ) ≤ 180) ∧
    (geolocation.haversine_distance 0 0 0 0 = 0 ∧
      coord.calculate_distance 0 0 0 0 = 0) :=
  ⟨⟨by norm_num, by norm_num, by norm_num, by norm_num⟩,
    distance_self_eq_zero 0 0 (by norm_num) (by norm_num) (by norm_num) (by norm_num)⟩

/-- C10: the latitude returned by the destination-point operation is the
degree image of an `arcsin`, hence always lies in `[-90, 90]`. -/
theorem rotate_bearing_latitude_in_range (lat lon θ d : ℝ) (hd : 0 ≤ d) :
    -90 ≤ (triangulate_app.rotate_bearing lat lon θ d).1 ∧
      (triangulate_app.rotate_bearing lat lon θ d).1 ≤ 90 := by
  unfold triangulate_app.rotate_bearing
  dsimp only
  constructor
  · rw [← Geo.deg_neg_pi_div_two]
    exact Geo.deg_le_deg (Real.neg_pi_div_two_le_arcsin _)
  · rw [← Geo.deg_pi_div_two]
    exact Geo.deg_le_deg (Real.arcsin_le_pi_div_two _)

/-- C10 witness: instantiated at start (0,0), bearing 0, distance 0. -/
theorem rotate_bearing_latitude_in_range_witness :
    (0:ℝ) ≤ 0 ∧
    (-90 ≤ (triangulate_app.rotate_bearing 0 0 0 0).1 ∧
      (triangulate_app.rotate_bearing 0 0 0 0).1 ≤ 90) :=
  ⟨le_refl 0, rotate_bearing_latitude_in_range 0 0 0 0 (le_refl 0)⟩

/-- C9 counterexample: at latitude 100 — outside the valid range [-90, 90] —
every kernel operation computes an ordinary numeric result from the
out-of-range value instead of rejecting it; no InvalidCoordinateError (or any
validation) exists in the code.  The destination operation even folds the
bogus latitude 100 to 80 through `asin ∘ sin`. -/
theorem kernel_accepts_out_of_range_input :
    geolocation.haversine_distance 100 0 100 0 = 0 ∧
    geolocation.initial_bearing 100 0 100 0 = 0 ∧
    triangulate_app.rotate_bearing 100 0 0 0 = (80, 0) := by
  refine ⟨geolocation.haversine_self 100 0, geolocation.bearing_self 100 0, ?_⟩
  have hpi := Real.pi_pos
  have hrad100 : rad (100:ℝ) = 5 * π / 9 := by unfold Geo.rad; ring
  have hsin : Real.sin (5 * π / 9) = Real.sin (4 * π / 9) := by
    rw [show 5 * π / 9 = π - 4 * π / 9 by ring, Real.sin_pi_sub]
  have harcsin : Real.arcsin (Real.sin (5 * π / 9)) = 4 * π / 9 := by
    rw [hsin]
    exact Real.arcsin_sin (by nlinarith) (by nlinarith)
  have hcosneg : Real.cos (5 * π / 9) < 0 :=
    Real.cos_neg_of_pi_div_two_lt_of_lt (by nlinarith) (by nlinarith)
  unfold triangulate_app.rotate_bearing
  have h0 : (0:ℝ) / 6371 = 0 := by norm_num
  rw [h0, hrad100, Geo.rad_zero]
  rw [Real.cos_zero, Real.sin_zero]
  simp only [mul_one, mul_zero, add_zero, zero_mul, zero_add]
  rw [harcsin]
  have hx : (0:ℝ) < 1 - Real.sin (5 * π / 9) * Real.sin (4 * π / 9) := by
    rw [← hsin]
    have := Real.cos_sq' (5 * π / 9)
    nlinarith [hcosneg]
  have hdeg : deg (4 * π / 9) = 80 := by
    unfold Geo.deg; field_simp; ring
  rw [Geo.atan2_zero_of_pos _ hx, Geo.deg_zero, hdeg]

/-- C9 amended: the kernel performs no range validation; inputs with latitude
outside [-90, 90] are fed to the trigonometric formulas and yield ordinary
numeric results (here, concrete values), with no error of any kind. -/
theorem kernel_no_range_validation (lat lon : ℝ) (h : 90 < lat) :
    geolocation.haversine_distance lat lon lat lon = 0 ∧
    geolocation.initial_bearing lat lon lat lon = 0 :=
  ⟨geolocation.haversine_self lat lon, geolocation.bearing_self lat lon⟩

/-- C9 witness: instantiated at the out-of-range latitude 100. -/
theorem kernel_no_range_validation_witness :
    (90:ℝ) < 100 ∧
    (geolocation.haversine_distance 100 0 100 0 = 0 ∧
      geolocation.initial_bearing 100 0 100 0 = 0) :=
  ⟨by norm_num, kernel_no_range_validation 100 0 (by norm_num)⟩

/-- C4 (evidence): starting from (0, 180) — on the antimeridian — with
bearing 90° (due east) and distance 6371·π/6 km, the destination operation
returns longitude 210, outside [-180, 180]: the code performs no
normalization of the resulting longitude. -/
theorem rotate_bearing_longitude_unnormalized :
    triangulate_app.rotate_bearing 0 180 90 (6371 * π / 6) = (0, 210) := by
  have hpi := Real.pi_pos
  have hδ : 6371 * π / 6 / 6371 = π / 6 := by ring
  have hrad90 : rad (90:ℝ) = π / 2 := by unfold Geo.rad; ring
  have hrad180 : rad (180:ℝ) = π := by unfold Geo.rad; field_simp
  unfold triangulate_app.rotate_bearing
  rw [hδ, hrad90, hrad180, Geo.rad_zero]
  rw [Real.sin_zero, Real.cos_zero, Real.cos_pi_div_two, Real.sin_pi_div_two]
  simp only [zero_mul, one_mul, mul_zero, add_zero, zero_add, mul_one, sub_zero]
  rw [Real.arcsin_zero, Geo.deg_zero]
  rw [Geo.atan2_sin_cos (π / 6) (by nlinarith) (by nlinarith)]
  have hdeg : deg (π + π / 6) = 210 := by
    unfold Geo.deg; field_simp; ring
  rw [hdeg]

/-!
Evaluation of `line_intersection` at the two-meridian fixture of the spec:
stations (0,0) and (0,10) on the equator, both with bearing 0 (due north).
-/

theorem triangulate_app.meridians_Δ12 :
    triangulate_app.Δ12 ((0:ℝ), (0:ℝ)) ((0:ℝ), (10:ℝ)) = π / 18 := by
  have hpi := Real.pi_pos
  unfold triangulate_app.Δ12
  dsimp only
  have hrad10 : rad (10:ℝ) = π / 18 := by unfold Geo.rad; ring
  rw [Geo.rad_zero, hrad10]
  simp only [sub_self, sub_zero, zero_div, Real.sin_zero, Real.cos_zero, ne_eq,
    OfNat.ofNat_ne_zero, not_false_eq_true, zero_pow, one_mul, zero_add]
  have hnn : 0 ≤ Real.sin (π / 18 / 2) :=
    Real.sin_nonneg_of_nonneg_of_le_pi (by positivity) (by nlinarith)
  rw [Real.sqrt_sq hnn, Real.arcsin_sin (by nlinarith) (by nlinarith)]
  ring

theorem triangulate_app.meridians_θa :
    triangulate_app.θa ((0:ℝ), (0:ℝ)) ((0:ℝ), (10:ℝ)) = π / 2 := by
  unfold triangulate_app.θa
  dsimp only
  rw [triangulate_app.meridians_Δ12, Geo.rad_zero, Real.sin_zero]
  simp only [zero_mul, sub_zero, zero_sub, neg_zero, zero_div, zero_mul, sub_self]
  rw [Real.arccos_zero]

theorem triangulate_app.meridians_θb :
    triangulate_app.θb ((0:ℝ), (0:ℝ)) ((0:ℝ), (10:ℝ)) = π / 2 := by
  unfold triangulate_app.θb
  dsimp only
  rw [triangulate_app.meridians_Δ12, Geo.rad_zero, Real.sin_zero]
  simp only [zero_mul, sub_zero, zero_sub, neg_zero, zero_div, zero_mul, sub_self]
  rw [Real.arccos_zero]

theorem triangulate_app.meridians_sin_pos :
    0 < Real.sin (rad ((0:ℝ), (10:ℝ)).2 - rad ((0:ℝ), (0:ℝ)).2) := by
  have hpi := Real.pi_pos
  dsimp only
  have hrad10 : rad (10:ℝ) = π / 18 := by unfold Geo.rad; ring
  rw [Geo.rad_zero, hrad10, sub_zero]
  exact Real.sin_pos_of_pos_of_lt_pi (by positivity) (by nlinarith)

theorem triangulate_app.meridians_θ12 :
    triangulate_app.θ12 ((0:ℝ), (0:ℝ)) ((0:ℝ), (10:ℝ)) = π / 2 := by
  unfold triangulate_app.θ12
  rw [if_pos triangulate_app.meridians_sin_pos, triangulate_app.meridians_θa]

theorem triangulate_app.meridians_θ21 :
    triangulate_app.θ21 ((0:ℝ), (0:ℝ)) ((0:ℝ), (10:ℝ)) = 3 * π / 2 := by
  unfold triangulate_app.θ21
  rw [if_pos triangulate_app.meridians_sin_pos, triangulate_app.meridians_θb]
  ring

theorem Geo.fmod_pi_div_two : fmod (π / 2) (2 * π) = π / 2 := by
  have hpi := Real.pi_pos
  unfold fmod
  have h1 : π / 2 / (2 * π) = (1:ℝ) / 4 := by
    field_simp
    ring
  rw [h1]
  have h2 : ⌊(1:ℝ) / 4⌋ = 0 := by
    rw [Int.floor_eq_zero_iff]
    constructor <;> norm_num
  rw [h2]
  norm_num

theorem Geo.fmod_five_pi_div_two : fmod (5 * π / 2) (2 * π) = π / 2 := by
  have hpi := Real.pi_pos
  unfold fmod
  have h1 : 5 * π / 2 / (2 * π) = (5:ℝ) / 4 := by
    field_simp
    ring
  rw [h1]
  have h2 : ⌊(5:ℝ) / 4⌋ = 1 := by
    rw [Int.floor_eq_iff]
    constructor <;> norm_num
  rw [h2]
  ring

theorem triangulate_app.meridians_α1 :
    triangulate_app.α1 ((0:ℝ), (0:ℝ)) 0 ((0:ℝ), (10:ℝ)) = -(π / 2) := by
  unfold triangulate_app.α1
  rw [triangulate_app.meridians_θ12, Geo.rad_zero]
  rw [show (0:ℝ) - π / 2 + π = π / 2 by ring, Geo.fmod_pi_div_two]
  ring

theorem triangulate_app.meridians_α2 :
    triangulate_app.α2 ((0:ℝ), (0:ℝ)) ((0:ℝ), (10:ℝ)) 0 = -(π / 2) := by
  unfold triangulate_app.α2
  rw [triangulate_app.meridians_θ21, Geo.rad_zero]
  rw [show 3 * π / 2 - 0 + π = 5 * π / 2 by ring, Geo.fmod_five_pi_div_two]
  ring

theorem triangulate_app.meridians_α3 :
    triangulate_app.α3 ((0:ℝ), (0:ℝ)) 0 ((0:ℝ), (10:ℝ)) 0 = π / 18 := by
  have hpi := Real.pi_pos
  unfold triangulate_app.α3
  rw [triangulate_app.meridians_α1, triangulate_app.meridians_α2,
    triangulate_app.meridians_Δ12]
  rw [Real.cos_neg, Real.sin_neg, Real.cos_pi_div_two, Real.sin_pi_div_two]
  rw [show -(0:ℝ) * 0 + -1 * -1 * Real.cos (π / 18) = Real.cos (π / 18) by ring]
  exact Real.arccos_cos (by positivity) (by nlinarith)

theorem triangulate_app.meridians_Δ13 :
    triangulate_app.Δ13 ((0:ℝ), (0:ℝ)) 0 ((0:ℝ), (10:ℝ)) 0 = π / 2 := by
  have hpi := Real.pi_pos
  unfold triangulate_app.Δ13
  rw [triangulate_app.meridians_α1, triangulate_app.meridians_α2,
    triangulate_app.meridians_α3, triangulate_app.meridians_Δ12]
  rw [Real.cos_neg, Real.sin_neg, Real.cos_pi_div_two, Real.sin_pi_div_two]
  rw [show (0:ℝ) + 0 * Real.cos (π / 18) = 0 by ring]
  rw [show Real.sin (π / 18) * -1 * -1 = Real.sin (π / 18) by ring]
  exact Geo.atan2_zero_pos_y _
    (Real.sin_pos_of_pos_of_lt_pi (by positivity) (by nlinarith))

theorem triangulate_app.meridians_φ3 :
    triangulate_app.φ3 ((0:ℝ), (0:ℝ)) 0 ((0:ℝ), (10:ℝ)) 0 = π / 2 := by
  unfold triangulate_app.φ3
  dsimp only
  rw [triangulate_app.meridians_Δ13, Geo.rad_zero]
  rw [Real.sin_zero, Real.cos_zero, Real.sin_pi_div_two, Real.cos_pi_div_two]
  rw [show (0:ℝ) * 0 + 1 * 1 * 1 = 1 by ring]
  exact Real.arcsin_one

theorem triangulate_app.meridians_lam3 :
    triangulate_app.lam3 ((0:ℝ), (0:ℝ)) 0 ((0:ℝ), (10:ℝ)) 0 = 0 := by
  unfold triangulate_app.lam3
  dsimp only
  rw [triangulate_app.meridians_Δ13, triangulate_app.meridians_φ3, Geo.rad_zero]
  rw [Real.sin_zero, Real.cos_zero, Real.sin_pi_div_two, Real.cos_pi_div_two]
  rw [show (0:ℝ) * 1 * 1 = 0 by ring, show (0:ℝ) - 0 * 1 = 0 by ring]
  rw [Geo.atan2_zero_zero]
  ring

theorem triangulate_app.meridians_eval :
    triangulate_app.line_intersection ((0:ℝ), (0:ℝ)) 0 ((0:ℝ), (10:ℝ)) 0 =
      some (90, 0) := by
  have hpi := Real.pi_pos
  unfold triangulate_app.line_intersection
  rw [if_neg (by rw [triangulate_app.meridians_Δ12]; positivity)]
  rw [if_neg (by
    rw [triangulate_app.meridians_α1, Real.sin_neg, Real.sin_pi_div_two]
    intro hc
    exact absurd hc.1 (by norm_num))]
  rw [if_neg (by
    rw [triangulate_app.meridians_α1, triangulate_app.meridians_α2,
      Real.sin_neg, Real.sin_pi_div_two]
    norm_num)]
  rw [triangulate_app.meridians_φ3, triangulate_app.meridians_lam3,
    Geo.deg_pi_div_two, Geo.deg_zero]

/-- C3 counterexample: for two equatorial stations at longitudes 0 and 10,
both with bearing 0 (due north), the intersection operation does NOT fail:
it returns a point, contrary to the claim that this input is rejected as
degenerate. -/
theorem intersection_parallel_meridians_returns_point :
    triangulate_app.line_intersection ((0:ℝ), (0:ℝ)) 0 ((0:ℝ), (10:ℝ)) 0 ≠ none := by
  rw [triangulate_app.meridians_eval]
  simp

/-- C3 amended: for that input the intersection operation returns the north
pole (90, 0) — which is the genuine crossing of the two meridian great
circles, not a spurious point; meridians are not parallel on a sphere. -/
theorem intersection_parallel_meridians_north_pole :
    triangulate_app.line_intersection ((0:ℝ), (0:ℝ)) 0 ((0:ℝ), (10:ℝ)) 0 =
      some (90, 0) :=
  triangulate_app.meridians_eval

/-!
Round-trip: the haversine distance from a point to the destination produced
by `rotate_bearing` recovers the travelled distance exactly (in real
arithmetic), for any start latitude in range and distance up to half the
earth's circumference.
-/

theorem Geo.rad_deg_sub (t a : ℝ) : rad (deg t - a) = t - rad a := by
  rw [rad_sub, rad_deg]

theorem Geo.rad_deg_add_sub (A lon : ℝ) : rad (deg (rad lon + A) - lon) = A := by
  rw [rad_sub, rad_deg]
  ring

/-- Spherical law for the direct geodesic problem: with destination latitude
`arcsin S2` and longitude offset `atan2 y x` as computed by the source, the
cosine of the central angle between start and destination equals `cos δ`. -/
theorem Geo.sphere_direct_central_angle (φ1 b δ S2 y x : ℝ)
    (hφ : 0 ≤ Real.cos φ1)
    (hS2 : S2 = Real.sin φ1 * Real.cos δ + Real.cos φ1 * Real.sin δ * Real.cos b)
    (hy : y = Real.sin b * Real.sin δ * Real.cos φ1)
    (hx : x = Real.cos δ - Real.sin φ1 * Real.sin (Real.arcsin S2)) :
    Real.sin φ1 * Real.sin (Real.arcsin S2) +
      Real.cos φ1 * Real.cos (Real.arcsin S2) * Real.cos (atan2 y x) = Real.cos δ := by
  have p1 := Real.sin_sq_add_cos_sq φ1
  have p2 := Real.sin_sq_add_cos_sq δ
  have p3 := Real.sin_sq_add_cos_sq b
  have hS2sq : 1 - S2 ^ 2 =
      (Real.cos φ1 * Real.cos δ - Real.sin φ1 * Real.sin δ * Real.cos b) ^ 2 +
        Real.sin b ^ 2 * Real.sin δ ^ 2 := by
    rw [hS2]
    linear_combination (-(Real.cos δ ^ 2 + Real.sin δ ^ 2 * Real.cos b ^ 2)) * p1 -
      p2 - Real.sin δ ^ 2 * p3
  have hS2le : S2 ^ 2 ≤ 1 := by
    nlinarith [sq_nonneg (Real.sin b * Real.sin δ),
      sq_nonneg (Real.cos φ1 * Real.cos δ - Real.sin φ1 * Real.sin δ * Real.cos b)]
  have hm1 : -1 ≤ S2 := by nlinarith [sq_nonneg (S2 + 1)]
  have h1 : S2 ≤ 1 := by nlinarith [sq_nonneg (S2 - 1)]
  have hsinφ2 : Real.sin (Real.arcsin S2) = S2 := Real.sin_arcsin hm1 h1
  have hcosφ2 : Real.cos (Real.arcsin S2) = Real.sqrt (1 - S2 ^ 2) :=
    Real.cos_arcsin S2
  have hx' : x = Real.cos δ - Real.sin φ1 * S2 := by rw [hx, hsinφ2]
  have key : x ^ 2 + y ^ 2 = Real.cos φ1 ^ 2 * (1 - S2 ^ 2) := by
    rw [hx', hy, hS2]
    linear_combination ((Real.sin φ1 * Real.cos δ + Real.cos φ1 * Real.sin δ * Real.cos b) ^ 2 -
        Real.cos δ ^ 2) * p1 + Real.cos φ1 ^ 2 * p2 +
      Real.cos φ1 ^ 2 * Real.sin δ ^ 2 * p3
  have hr : Real.sqrt (x ^ 2 + y ^ 2) = Real.cos φ1 * Real.cos (Real.arcsin S2) := by
    rw [key, hcosφ2, Real.sqrt_mul (sq_nonneg (Real.cos φ1)), Real.sqrt_sq hφ]
  by_cases hzero : x = 0 ∧ y = 0
  · have hprod : Real.cos φ1 * Real.cos (Real.arcsin S2) = 0 := by
      rw [← hr, hzero.1, hzero.2]
      simp
    have hxzero : Real.cos δ - Real.sin φ1 * S2 = 0 := by rw [← hx', hzero.1]
    rw [hzero.1, hzero.2, Geo.atan2_zero_zero, Real.cos_zero, hsinφ2, mul_one, hprod]
    linarith
  · have hne : x ≠ 0 ∨ y ≠ 0 := not_and_or.mp hzero |>.imp id id
    have hpos : 0 < x ^ 2 + y ^ 2 := by
      rcases hne with h | h
      · have hx2 : x ^ 2 ≠ 0 := pow_ne_zero 2 h
        have : 0 < x ^ 2 := lt_of_le_of_ne (sq_nonneg x) (Ne.symm hx2)
        nlinarith [sq_nonneg y]
      · have hy2 : y ^ 2 ≠ 0 := pow_ne_zero 2 h
        have : 0 < y ^ 2 := lt_of_le_of_ne (sq_nonneg y) (Ne.symm hy2)
        nlinarith [sq_nonneg x]
    have hsq : 0 < Real.sqrt (x ^ 2 + y ^ 2) := Real.sqrt_pos.mpr hpos
    have hrne : Real.cos φ1 * Real.cos (Real.arcsin S2) ≠ 0 := by
      rw [← hr]
      exact hsq.ne'
    rw [Geo.cos_atan2 y x hne, hsinφ2, hr]
    have hcancel : Real.cos φ1 * Real.cos (Real.arcsin S2) *
        (x / (Real.cos φ1 * Real.cos (Real.arcsin S2))) = x := by
      field_simp
    rw [hcancel, hx']
    ring

/-- Half-angle identity used by the haversine formula. -/
theorem Geo.sin_half_sq (v : ℝ) : Real.sin (v / 2) ^ 2 = (1 - Real.cos v) / 2 := by
  have h := Real.sin_sq_eq_half_sub (v / 2)
  rw [show 2 * (v / 2) = v by ring] at h
  linarith

/-- The haversine `a`-term between a start point and the destination computed
by the direct-geodesic formulas equals `sin² (δ/2)`, where `δ` is the
angular distance travelled. -/
theorem Geo.direct_hav_a (φ1 b δ : ℝ) (hφ : 0 ≤ Real.cos φ1) :
    Real.sin ((Real.arcsin (Real.sin φ1 * Real.cos δ +
        Real.cos φ1 * Real.sin δ * Real.cos b) - φ1) / 2) ^ 2 +
      Real.cos φ1 * Real.cos (Real.arcsin (Real.sin φ1 * Real.cos δ +
        Real.cos φ1 * Real.sin δ * Real.cos b)) *
        Real.sin (atan2 (Real.sin b * Real.sin δ * Real.cos φ1)
          (Real.cos δ - Real.sin φ1 * Real.sin (Real.arcsin (Real.sin φ1 * Real.cos δ +
            Real.cos φ1 * Real.sin δ * Real.cos b))) / 2) ^ 2 =
      Real.sin (δ / 2) ^ 2 := by
  have hC := Geo.sphere_direct_central_angle φ1 b δ _ _ _ hφ rfl rfl rfl
  rw [Geo.sin_half_sq, Geo.sin_half_sq, Geo.sin_half_sq, Real.cos_sub]
  linear_combination (-(1:ℝ)/2) * hC

/-- C5: round-trip projection.  For any start point with latitude in range,
any bearing, and any distance `0 ≤ d ≤ 6371·π` (half the earth's
circumference), the haversine distance from the start to the destination
returned by `rotate_bearing` equals `d` exactly in real arithmetic (hence
within any floating tolerance). -/
theorem distance_destination_round_trip (lat lon θ d : ℝ)
    (h1 : -90 ≤ lat) (h2 : lat ≤ 90) (h3 : 0 ≤ d) (h4 : d ≤ 6371 * π) :
    geolocation.haversine_distance lat lon
      (triangulate_app.rotate_bearing lat lon θ d).1
      (triangulate_app.rotate_bearing lat lon θ d).2 = d := by
  have hpi := Real.pi_pos
  have hδ0 : 0 ≤ d / 6371 := by positivity
  have hδπ : d / 6371 ≤ π := by
    rw [div_le_iff₀ (by norm_num : (0:ℝ) < 6371)]
    nlinarith
  have hφmem : rad lat ∈ Set.Icc (-(π / 2)) (π / 2) := by
    unfold Geo.rad
    constructor
    · nlinarith
    · nlinarith
  have hφ : 0 ≤ Real.cos (rad lat) := Real.cos_nonneg_of_mem_Icc hφmem
  unfold geolocation.haversine_distance geolocation.haversine_c
    geolocation.haversine_a triangulate_app.rotate_bearing
  dsimp only
  rw [Geo.rad_deg_sub, Geo.rad_deg_add_sub]
  simp only [Geo.rad_deg]
  rw [Geo.direct_hav_a (rad lat) (rad θ) (d / 6371) hφ]
  have hhalf0 : 0 ≤ d / 6371 / 2 := by positivity
  have hhalfπ : d / 6371 / 2 ≤ π / 2 := by linarith
  have hs : Real.sqrt (Real.sin (d / 6371 / 2) ^ 2) = Real.sin (d / 6371 / 2) :=
    Real.sqrt_sq (Real.sin_nonneg_of_nonneg_of_le_pi hhalf0 (by linarith))
  have h1s : 1 - Real.sin (d / 6371 / 2) ^ 2 = Real.cos (d / 6371 / 2) ^ 2 :=
    (Real.cos_sq' _).symm
  have hc : Real.sqrt (Real.cos (d / 6371 / 2) ^ 2) = Real.cos (d / 6371 / 2) :=
    Real.sqrt_sq (Real.cos_nonneg_of_mem_Icc ⟨by linarith, hhalfπ⟩)
  rw [hs, h1s, hc, Geo.atan2_sin_cos _ (by linarith) hhalfπ]
  ring

/-- C5 witness: instantiated at start (0,0), bearing 90, distance 0. -/
theorem distance_destination_round_trip_witness :
    ((-90:ℝ) ≤ 0 ∧ (0:ℝ) ≤ 90 ∧ (0:ℝ) ≤ 0 ∧ (0:ℝ) ≤ 6371 * π) ∧
    geolocation.haversine_distance 0 0
      (triangulate_app.rotate_bearing 0 0 90 0).1
      (triangulate_app.rotate_bearing 0 0 90 0).2 = 0 :=
  ⟨⟨by norm_num, by norm_num, le_refl 0, by positivity⟩,
    distance_destination_round_trip 0 0 90 0 (by norm_num) (by norm_num)
      (le_refl 0) (by positivity)⟩
